import Mathlib

/-!
Verification of the TechNest user-account API (Express routes in
`src/unnamed/part_000`), focused on the two-factor-authentication flow:
login fork, setup, verify-and-enable, validate, backup-code redemption
and disable.

The route handlers are embedded shallowly: each handler becomes a pure
function from the looked-up user record (the result of `User.findOne` /
`User.findById`, persistence being an external collaborator) and the
request parameters to an HTTP-level response, paired with the user
record as saved when the handler mutates it.  The helper module
`twoFactorAuth` (`../utils/twoFactorAuth`) is not part of the sources,
so its primitives are modelled from the spec, as marked on each one.
-/

/-- The 2FA sub-record embedded in a user document
(`user.securitySettings` in the routes): the enabled flag, the
encrypted TOTP secret (absent when 2FA was never set up or was
disabled) and the list of unused backup codes (absent likewise). -/
structure SecuritySettings where
  twoFactorEnabled : Bool
  twoFactorSecret : Option Nat
  twoFactorBackupCodes : Option (List String)
deriving Repr, DecidableEq

/-- A user document, restricted to the fields the embedded routes read:
identifier, username, email, stored password credential, role, email
verification flag, and the 2FA settings. -/
structure User where
  id : Nat
  username : String
  email : String
  password : String
  role : String
  isEmailVerified : Bool
  securitySettings : SecuritySettings
deriving Repr, DecidableEq

/-- The user summary serialized into successful responses
(`{ id, username, email, role, isEmailVerified }`); it carries neither
the password nor any 2FA field. -/
structure UserSummary where
  id : Nat
  username : String
  email : String
  role : String
  isEmailVerified : Bool
deriving Repr, DecidableEq

/-- An HTTP response as produced by the embedded handlers: the status
code plus the JSON fields any of these routes may set.  Absent fields
are `none`. -/
structure ApiResponse where
  status : Nat
  message : Option String := none
  token : Option String := none
  require2FA : Option Bool := none
  email : Option String := none
  user : Option UserSummary := none
  qrCode : Option String := none
  backupCodes : Option (List String) := none
  secret : Option Nat := none
deriving Repr, DecidableEq

/-- Modelled from the spec: password comparison
(`user.comparePassword`, delegated to a hashing library) holds exactly
when the submitted password matches the stored credential. -/
def comparePassword (user : User) (password : String) : Bool :=
  user.password == password

/-- Modelled from the spec: JWT issuance (`jwt.sign({ userId }, ...)`)
produces a session token determined by the user id. -/
def jwtSign (userId : Nat) : String :=
  "jwt." ++ toString userId

/-- Modelled from the spec: the keyed one-way code derivation of the
TOTP verifier (a function of the secret and the counter, spec 4.4); the
concrete hash lives in the external library, so it is abstracted as an
injective pairing of secret and counter. -/
def totpCode (secret counter : Nat) : Nat :=
  Nat.pair secret counter

/-- Modelled from the spec: the accepted counter window of the TOTP
verifier — the current counter and the immediately adjacent counters
(one step on each side, spec 4.4). -/
def totpWindow (counter : Nat) : List Nat :=
  if counter = 0 then [0, 1] else [counter - 1, counter, counter + 1]

/-- Modelled from the spec: `twoFactorAuth.verifyToken` accepts a
submitted code at time `t` (seconds) exactly when it equals the code
derived for one of the counters in the window around `t / 30`
(stepSeconds = 30, spec 4.4). -/
def verifyToken (token secret t : Nat) : Bool :=
  (totpWindow (t / 30)).any (fun c => token == totpCode secret c)

/-- Modelled from the spec: `twoFactorAuth.encrypt2FASecret` encrypts
the secret under a process-wide key; only the round-trip with
`decrypt2FASecret` matters here, so the blob is the secret shifted to
keep 0 free as a malformed blob. -/
def encrypt2FASecret (secret : Nat) : Nat :=
  secret + 1

/-- Modelled from the spec: `twoFactorAuth.decrypt2FASecret` fails
closed (spec 4.2) — an absent or malformed blob yields no plaintext,
which in the route bodies surfaces as a thrown error caught by the
generic 500 handler. -/
def decrypt2FASecret (blob : Option Nat) : Option Nat :=
  match blob with
  | none => none
  | some b => if b = 0 then none else some (b - 1)

/-- The serialized user summary of the success responses. -/
def summarize (user : User) : UserSummary :=
  { id := user.id, username := user.username, email := user.email,
    role := user.role, isEmailVerified := user.isEmailVerified }

/-- Route `POST /login` (part_000 lines 114-159): find the user by email
(`lookup` is the result), 401 `Invalid credentials` when absent or when
the password does not match; then fork on `twoFactorEnabled`: either
the `require2FA` marker with the email, or a session token with the
user summary. -/
def login (lookup : Option User) (password : String) : ApiResponse :=
  match lookup with
  | none => { status := 401, message := some "Invalid credentials" }
  | some user =>
    if comparePassword user password then
      if user.securitySettings.twoFactorEnabled then
        { status := 200, require2FA := some true, email := some user.email }
      else
        { status := 200, token := some (jwtSign user.id),
          user := some (summarize user) }
    else
      { status := 401, message := some "Invalid credentials" }

/-- Route `POST /2fa/setup` (part_000 lines 314-344): 404 when the user is
absent; otherwise store the encrypted fresh secret and the fresh backup
codes (the generated secret, QR code and backup codes arrive as
arguments, generation being random) and answer with the QR code, the
backup codes and the plaintext secret.  `twoFactorEnabled` is not
written. -/
def twoFASetup (lookup : Option User) (secret : Nat) (qrCode : String)
    (freshBackupCodes : List String) : ApiResponse × Option User :=
  match lookup with
  | none => ({ status := 404, message := some "User not found" }, none)
  | some user =>
    let user' := { user with securitySettings :=
      { user.securitySettings with
        twoFactorSecret := some (encrypt2FASecret secret),
        twoFactorBackupCodes := some freshBackupCodes } }
    ({ status := 200, qrCode := some qrCode,
       backupCodes := some freshBackupCodes, secret := some secret },
     some user')

/-- Route `POST /2fa/verify` (part_000 lines 347-375): 404 when the user is
absent; decrypt the stored secret (a decryption failure is thrown and
caught by the generic 500 handler); 400 `Invalid verification code`
when the submitted code fails TOTP verification; otherwise set
`twoFactorEnabled := true` and save. -/
def twoFAVerify (lookup : Option User) (token t : Nat) :
    ApiResponse × Option User :=
  match lookup with
  | none => ({ status := 404, message := some "User not found" }, none)
  | some user =>
    match decrypt2FASecret user.securitySettings.twoFactorSecret with
    | none => ({ status := 500, message := some "Server error" }, some user)
    | some secret =>
      if verifyToken token secret t then
        let user' := { user with securitySettings :=
          { user.securitySettings with twoFactorEnabled := true } }
        ({ status := 200, message := some "2FA enabled successfully" },
         some user')
      else
        ({ status := 400, message := some "Invalid verification code" },
         some user)

/-- Route `POST /2fa/validate` (part_000 lines 378-418): 400
`Invalid request` when the user is absent or 2FA is not enabled;
decrypt the stored secret (failure reaches the generic 500 handler);
400 `Invalid verification code` when the code fails TOTP verification;
otherwise issue a session token with the user summary.  The handler
runs without the auth middleware and never consults the password. -/
def twoFAValidate (lookup : Option User) (token t : Nat) : ApiResponse :=
  match lookup with
  | none => { status := 400, message := some "Invalid request" }
  | some user =>
    if user.securitySettings.twoFactorEnabled then
      match decrypt2FASecret user.securitySettings.twoFactorSecret with
      | none => { status := 500, message := some "Server error" }
      | some secret =>
        if verifyToken token secret t then
          { status := 200, token := some (jwtSign user.id),
            user := some (summarize user) }
        else
          { status := 400, message := some "Invalid verification code" }
    else
      { status := 400, message := some "Invalid request" }

/-- Route `POST /2fa/disable` (part_000 lines 421-449): 404 when the user is
absent; decrypt the stored secret and TOTP-verify the submitted code
(decryption failure reaches the generic 500 handler); 400
`Invalid verification code` on a failing code; on success clear the
enabled flag, the secret and the backup codes and save. -/
def twoFADisable (lookup : Option User) (token t : Nat) :
    ApiResponse × Option User :=
  match lookup with
  | none => ({ status := 404, message := some "User not found" }, none)
  | some user =>
    match decrypt2FASecret user.securitySettings.twoFactorSecret with
    | none => ({ status := 500, message := some "Server error" }, some user)
    | some secret =>
      if verifyToken token secret t then
        let user' := { user with securitySettings :=
          { twoFactorEnabled := false, twoFactorSecret := none,
            twoFactorBackupCodes := none } }
        ({ status := 200, message := some "2FA disabled successfully" },
         some user')
      else
        ({ status := 400, message := some "Invalid verification code" },
         some user)

/-- Route `POST /2fa/backup` (part_000 lines 452-494): 400 `Invalid request`
when the user is absent or 2FA is not enabled; 400
`Invalid backup code` when the submitted code is not in the stored list
(an absent list makes `.includes` throw, reaching the generic 500
handler); otherwise remove the code by filtering, save, and issue a
session token with the user summary. -/
def twoFABackup (lookup : Option User) (backupCode : String) :
    ApiResponse × Option User :=
  match lookup with
  | none => ({ status := 400, message := some "Invalid request" }, none)
  | some user =>
    if user.securitySettings.twoFactorEnabled then
      match user.securitySettings.twoFactorBackupCodes with
      | none => ({ status := 500, message := some "Server error" }, some user)
      | some codes =>
        if codes.contains backupCode then
          let remaining := codes.filter (fun code => code != backupCode)
          let user' := { user with securitySettings :=
            { user.securitySettings with
              twoFactorBackupCodes := some remaining } }
          ({ status := 200, token := some (jwtSign user.id),
             user := some (summarize user') }, some user')
        else
          ({ status := 400, message := some "Invalid backup code" },
           some user)
    else
      ({ status := 400, message := some "Invalid request" }, some user)

/-- The number of stored backup codes of a (possibly absent) user
record; an absent list counts as empty. -/
def backupCount (lookup : Option User) : Nat :=
  match lookup with
  | none => 0
  | some user =>
    match user.securitySettings.twoFactorBackupCodes with
    | none => 0
    | some codes => codes.length

/-- A concrete user record with 2FA enabled, a decryptable stored
secret (plaintext 7) and two backup codes, used to instantiate the
theorems below on closed inputs. -/
def sampleUserEnabled : User :=
  { id := 1, username := "alice", email := "alice@technest.io",
    password := "hunter2", role := "user", isEmailVerified := true,
    securitySettings :=
      { twoFactorEnabled := true,
        twoFactorSecret := some (encrypt2FASecret 7),
        twoFactorBackupCodes := some ["aaaa", "bbbb"] } }

/-- A concrete user record with 2FA never set up: disabled, no secret,
no backup codes. -/
def sampleUserFresh : User :=
  { id := 2, username := "bob", email := "bob@technest.io",
    password := "swordfish", role := "user", isEmailVerified := false,
    securitySettings :=
      { twoFactorEnabled := false,
        twoFactorSecret := none,
        twoFactorBackupCodes := none } }

theorem totpCode_inj {s c c' : Nat} (h : totpCode s c = totpCode s c') :
    c = c' :=
  (Nat.pair_eq_pair.mp h).2

theorem verifyToken_code_iff (s c t : Nat) :
    verifyToken (totpCode s c) s t = true ↔ c ∈ totpWindow (t / 30) := by
  unfold verifyToken
  rw [List.any_eq_true]
  constructor
  · rintro ⟨c', hc', he⟩
    have he' : totpCode s c = totpCode s c' := by
      exact beq_iff_eq.mp he
    rwa [totpCode_inj he']
  · intro hc
    exact ⟨c, hc, beq_self_eq_true _⟩

theorem mem_totpWindow_iff {c w : Nat} :
    c ∈ totpWindow w ↔ w ≤ c + 1 ∧ c ≤ w + 1 := by
  by_cases hw : w = 0
  · subst hw
    simp only [totpWindow, reduceIte, List.mem_cons, List.not_mem_nil,
      or_false]
    omega
  · simp only [totpWindow, if_neg hw, List.mem_cons, List.not_mem_nil,
      or_false]
    omega

theorem length_filter_ne_count (l : List String) (a : String) :
    (l.filter (fun c => c != a)).length + l.count a = l.length := by
  induction l with
  | nil => rfl
  | cons b l ih =>
    by_cases hb : b = a
    · subst hb
      simp only [List.filter_cons, bne_self_eq_false, Bool.false_eq_true,
        if_false, List.count_cons_self, List.length_cons]
      omega
    · simp only [List.filter_cons, bne_iff_ne, ne_eq, hb, not_false_iff,
        if_true, List.length_cons, List.count_cons_of_ne (Ne.symm hb)]
      omega

theorem contains_filter_ne_self (l : List String) (a : String) :
    (l.filter (fun c => c != a)).contains a = false := by
  induction l with
  | nil => rfl
  | cons b l ih =>
    by_cases hb : b = a
    · subst hb
      simp [List.filter_cons, ih]
    · simp only [List.filter_cons, bne_iff_ne, ne_eq, hb, not_false_iff,
      if_true, List.contains_cons, ih, Bool.or_false]
      exact beq_eq_false_iff_ne.mpr (Ne.symm hb)

theorem contains_of_count_one {l : List String} {a : String}
    (h : l.count a = 1) : l.contains a = true := by
  have hm : a ∈ l := List.count_pos_iff.mp (by omega)
  exact List.elem_eq_true_of_mem hm

/-- Claim C9: for every secret and time `t` (with `t ≥ 29` so that
`t - 29` is meaningful), the TOTP verifier accepts the code derived for
the time step containing `t` when submitted at `t`, at `t + 29` and at
`t - 29`, rejects it at `t + 61`, and in general accepts the code for a
counter `c` at time `t` exactly when `c` is the current counter
`t / 30` or one of its two immediate neighbours — never a wider
window. -/
theorem totp_window_exact (s t c : Nat) (h : 29 ≤ t) :
    verifyToken (totpCode s (t / 30)) s t = true ∧
    verifyToken (totpCode s (t / 30)) s (t + 29) = true ∧
    verifyToken (totpCode s (t / 30)) s (t - 29) = true ∧
    verifyToken (totpCode s (t / 30)) s (t + 61) = false ∧
    (verifyToken (totpCode s c) s t = true ↔
      t / 30 ≤ c + 1 ∧ c ≤ t / 30 + 1) := by
  refine ⟨?_, ?_, ?_, ?_, ?_⟩
  · rw [verifyToken_code_iff, mem_totpWindow_iff]
    omega
  · rw [verifyToken_code_iff, mem_totpWindow_iff]
    omega
  · rw [verifyToken_code_iff, mem_totpWindow_iff]
    omega
  · rw [Bool.eq_false_iff]
    intro hc
    rw [verifyToken_code_iff, mem_totpWindow_iff] at hc
    omega
  · rw [verifyToken_code_iff, mem_totpWindow_iff]

/-- Witness for C9 at secret 7, time 100 and probe counter 5. -/
theorem totp_window_exact_witness :
    29 ≤ 100 ∧
    (verifyToken (totpCode 7 (100 / 30)) 7 100 = true ∧
     verifyToken (totpCode 7 (100 / 30)) 7 (100 + 29) = true ∧
     verifyToken (totpCode 7 (100 / 30)) 7 (100 - 29) = true ∧
     verifyToken (totpCode 7 (100 / 30)) 7 (100 + 61) = false ∧
     (verifyToken (totpCode 7 5) 7 100 = true ↔
       100 / 30 ≤ 5 + 1 ∧ 5 ≤ 100 / 30 + 1)) :=
  ⟨by decide, totp_window_exact 7 100 5 (by decide)⟩

/-- Claim C3: on a login whose email matched a user and whose password
is correct, the response is the `require2FA` marker with the email and
no session token when `twoFactorEnabled` is true, and a session token
when it is false; the two cases are exhaustive. -/
theorem login_valid_credentials (u : User) (pw : String)
    (hpw : u.password = pw) :
    (u.securitySettings.twoFactorEnabled = true →
      login (some u) pw =
        { status := 200, require2FA := some true,
          email := some u.email }) ∧
    (u.securitySettings.twoFactorEnabled = false →
      login (some u) pw =
        { status := 200, token := some (jwtSign u.id),
          user := some (summarize u) }) := by
  constructor <;> intro h <;> simp [login, comparePassword, hpw, h]

/-- Witness for C3 at the enabled sample user. -/
theorem login_valid_credentials_witness :
    sampleUserEnabled.password = "hunter2" ∧
    ((sampleUserEnabled.securitySettings.twoFactorEnabled = true →
      login (some sampleUserEnabled) "hunter2" =
        { status := 200, require2FA := some true,
          email := some sampleUserEnabled.email }) ∧
     (sampleUserEnabled.securitySettings.twoFactorEnabled = false →
      login (some sampleUserEnabled) "hunter2" =
        { status := 200, token := some (jwtSign sampleUserEnabled.id),
          user := some (summarize sampleUserEnabled) })) :=
  ⟨rfl, login_valid_credentials sampleUserEnabled "hunter2" rfl⟩

/-- Claim C8: a login naming an email with no user record and a login
naming an existing user with a wrong password produce identical
responses — status 401 with the message `Invalid credentials` — so the
login path does not reveal account existence. -/
theorem login_no_account_enumeration (u : User) (pw pw' : String)
    (h : u.password ≠ pw') :
    login none pw = login (some u) pw' ∧
    login none pw =
      { status := 401, message := some "Invalid credentials" } := by
  have hc : comparePassword u pw' = false := by
    simp [comparePassword, h]
  constructor
  · simp [login, hc]
  · rfl

/-- Witness for C8: absent user with password "x" against the fresh
sample user with wrong password "wrong". -/
theorem login_no_account_enumeration_witness :
    sampleUserFresh.password ≠ "wrong" ∧
    (login none "x" = login (some sampleUserFresh) "wrong" ∧
     login none "x" =
       { status := 401, message := some "Invalid credentials" }) :=
  ⟨by decide, login_no_account_enumeration sampleUserFresh "x" "wrong"
    (by decide)⟩

/-- Claim C2 counterexample: running setup on the sample user whose 2FA
is already enabled stores the fresh secret but leaves
`twoFactorEnabled` at true — the handler never writes that flag — so
the claim that setup leaves `twoFactorEnabled` false from every prior
state (including Enabled) fails on this input. -/
theorem setup_enabled_counterexample :
    ((twoFASetup (some sampleUserEnabled) 5 "qr" ["cccc"]).2.map
      (fun u => u.securitySettings.twoFactorEnabled)) = some true ∧
    ((twoFASetup (some sampleUserEnabled) 5 "qr" ["cccc"]).2.map
      (fun u => u.securitySettings.twoFactorEnabled)) ≠ some false := by
  constructor
  · rfl
  · decide

/-- Claim C2 (amended): for every user, from any prior 2FA state, setup
succeeds (status 200), stores the freshly generated encrypted secret
and backup codes, and leaves `twoFactorEnabled` unchanged — in
particular it stays false whenever 2FA was not already enabled, and
setup alone never makes it true; it is the subsequent verify on the
pending secret that flips it: a succeeding verify sets
`twoFactorEnabled` true, a failing one leaves the stored record
unchanged. -/
theorem setup_stores_pending (u : User) (s : Nat) (qr : String)
    (bc : List String) (tok t : Nat) :
    ∃ u' : User,
      (twoFASetup (some u) s qr bc).2 = some u' ∧
      (twoFASetup (some u) s qr bc).1.status = 200 ∧
      u'.securitySettings.twoFactorSecret = some (encrypt2FASecret s) ∧
      u'.securitySettings.twoFactorBackupCodes = some bc ∧
      u'.securitySettings.twoFactorEnabled =
        u.securitySettings.twoFactorEnabled ∧
      decrypt2FASecret u'.securitySettings.twoFactorSecret = some s ∧
      (verifyToken tok s t = true →
        ∃ u'' : User,
          (twoFAVerify (some u') tok t).2 = some u'' ∧
          u''.securitySettings.twoFactorEnabled = true) ∧
      (verifyToken tok s t = false →
        (twoFAVerify (some u') tok t).2 = some u') := by
  refine ⟨_, rfl, rfl, rfl, rfl, rfl, ?_, ?_, ?_⟩
  · simp [decrypt2FASecret, encrypt2FASecret]
  · intro hv
    refine ⟨{ u with securitySettings :=
      { twoFactorEnabled := true,
        twoFactorSecret := some (encrypt2FASecret s),
        twoFactorBackupCodes := some bc } }, ?_, rfl⟩
    simp [twoFAVerify, decrypt2FASecret, encrypt2FASecret, hv]
  · intro hv
    simp [twoFAVerify, decrypt2FASecret, encrypt2FASecret, hv]

/-- Claim C4: a disable request whose submitted code fails TOTP
verification against the decrypted stored secret answers 400
`Invalid verification code` and saves nothing — the user record, and
with it `twoFactorEnabled`, `twoFactorSecret` and
`twoFactorBackupCodes`, is exactly as it was. -/
theorem disable_wrong_code_no_change (u : User) (tok t s : Nat)
    (hen : u.securitySettings.twoFactorEnabled = true)
    (hd : decrypt2FASecret u.securitySettings.twoFactorSecret = some s)
    (hv : verifyToken tok s t = false) :
    twoFADisable (some u) tok t =
      ({ status := 400, message := some "Invalid verification code" },
       some u) := by
  simp [twoFADisable, hd, hv]

/-- Witness for C4 at the enabled sample user with a wrong code. -/
theorem disable_wrong_code_no_change_witness :
    sampleUserEnabled.securitySettings.twoFactorEnabled = true ∧
    decrypt2FASecret sampleUserEnabled.securitySettings.twoFactorSecret =
      some 7 ∧
    verifyToken 0 7 0 = false ∧
    twoFADisable (some sampleUserEnabled) 0 0 =
      ({ status := 400, message := some "Invalid verification code" },
       some sampleUserEnabled) :=
  ⟨rfl, rfl, by decide,
   disable_wrong_code_no_change sampleUserEnabled 0 0 7 rfl rfl (by decide)⟩

/-- Claim C5: a disable request whose submitted code passes TOTP
verification answers 200 and saves the record with all three 2FA
fields cleared: `twoFactorEnabled` false, `twoFactorSecret` absent,
`twoFactorBackupCodes` absent. -/
theorem disable_correct_code_clears (u : User) (tok t s : Nat)
    (hen : u.securitySettings.twoFactorEnabled = true)
    (hd : decrypt2FASecret u.securitySettings.twoFactorSecret = some s)
    (hv : verifyToken tok s t = true) :
    twoFADisable (some u) tok t =
      ({ status := 200, message := some "2FA disabled successfully" },
       some { u with securitySettings :=
         { twoFactorEnabled := false, twoFactorSecret := none,
           twoFactorBackupCodes := none } }) := by
  simp [twoFADisable, hd, hv]

/-- Witness for C5 at the enabled sample user with the current code. -/
theorem disable_correct_code_clears_witness :
    sampleUserEnabled.securitySettings.twoFactorEnabled = true ∧
    decrypt2FASecret sampleUserEnabled.securitySettings.twoFactorSecret =
      some 7 ∧
    verifyToken (totpCode 7 0) 7 0 = true ∧
    twoFADisable (some sampleUserEnabled) (totpCode 7 0) 0 =
      ({ status := 200, message := some "2FA disabled successfully" },
       some { sampleUserEnabled with securitySettings :=
         { twoFactorEnabled := false, twoFactorSecret := none,
           twoFactorBackupCodes := none } }) :=
  ⟨rfl, rfl, by decide,
   disable_correct_code_clears sampleUserEnabled (totpCode 7 0) 0 7
     rfl rfl (by decide)⟩

/-- Claim C6: the verify-and-enable handler answers 400
`Invalid verification code` when a stored secret decrypts but the
submitted code fails TOTP verification, and answers with the distinct
generic 500 server error when no secret is stored (setup never ran, so
the decryption step throws); in both failure cases the record is saved
unchanged, so `twoFactorEnabled` is not set to true. -/
theorem verify_failure_modes (u₁ u₂ : User) (tok t s : Nat)
    (hd : decrypt2FASecret u₁.securitySettings.twoFactorSecret = some s)
    (hv : verifyToken tok s t = false)
    (hns : u₂.securitySettings.twoFactorSecret = none) :
    twoFAVerify (some u₁) tok t =
      ({ status := 400, message := some "Invalid verification code" },
       some u₁) ∧
    twoFAVerify (some u₂) tok t =
      ({ status := 500, message := some "Server error" }, some u₂) ∧
    (twoFAVerify (some u₁) tok t).1 ≠ (twoFAVerify (some u₂) tok t).1 := by
  have h₁ : twoFAVerify (some u₁) tok t =
      ({ status := 400, message := some "Invalid verification code" },
       some u₁) := by
    simp [twoFAVerify, hd, hv]
  have h₂ : twoFAVerify (some u₂) tok t =
      ({ status := 500, message := some "Server error" }, some u₂) := by
    simp [twoFAVerify, hns, decrypt2FASecret]
  refine ⟨h₁, h₂, ?_⟩
  rw [h₁, h₂]
  simp

/-- Witness for C6: the enabled sample user with a wrong code against
the fresh sample user that never ran setup. -/
theorem verify_failure_modes_witness :
    decrypt2FASecret sampleUserEnabled.securitySettings.twoFactorSecret =
      some 7 ∧
    verifyToken 0 7 0 = false ∧
    sampleUserFresh.securitySettings.twoFactorSecret = none ∧
    (twoFAVerify (some sampleUserEnabled) 0 0 =
      ({ status := 400, message := some "Invalid verification code" },
       some sampleUserEnabled) ∧
     twoFAVerify (some sampleUserFresh) 0 0 =
      ({ status := 500, message := some "Server error" },
       some sampleUserFresh) ∧
     (twoFAVerify (some sampleUserEnabled) 0 0).1 ≠
       (twoFAVerify (some sampleUserFresh) 0 0).1) :=
  ⟨rfl, by decide, rfl,
   verify_failure_modes sampleUserEnabled sampleUserFresh 0 0 7
     rfl (by decide) rfl⟩

theorem backupCount_after_redeem_le (v : User) (code' : String) :
    backupCount (twoFABackup (some v) code').2 ≤ backupCount (some v) := by
  cases hen : v.securitySettings.twoFactorEnabled with
  | false => simp [twoFABackup, hen, backupCount]
  | true =>
    cases hbc : v.securitySettings.twoFactorBackupCodes with
    | none => simp [twoFABackup, hen, hbc, backupCount]
    | some codes =>
      by_cases hmem : code' ∈ codes
      · have hco : codes.contains code' = true :=
          List.elem_eq_true_of_mem hmem
        simp only [twoFABackup, hen, hbc, backupCount, hco,
          eq_self_iff_true, if_true]
        exact List.length_filter_le _ _
      · simp [twoFABackup, hen, hbc, hmem, backupCount]

/-- Claim C1: for a user with 2FA enabled whose stored backup-code list
contains the submitted code exactly once, redemption succeeds (status
200 with a session token) and saves the record with that code filtered
out — exactly one element fewer, the code no longer present; a second
redemption of the identical code against the saved record fails with
400 `Invalid backup code` and saves the record unchanged; and no
backup redemption on any user ever enlarges the stored code list. -/
theorem backup_code_single_use (u v : User) (code code' : String)
    (codes : List String)
    (hen : u.securitySettings.twoFactorEnabled = true)
    (hc : u.securitySettings.twoFactorBackupCodes = some codes)
    (h1 : codes.count code = 1) :
    ∃ u' : User,
      (twoFABackup (some u) code).2 = some u' ∧
      (twoFABackup (some u) code).1.status = 200 ∧
      (twoFABackup (some u) code).1.token = some (jwtSign u.id) ∧
      u'.securitySettings.twoFactorBackupCodes =
        some (codes.filter (fun c => c != code)) ∧
      (codes.filter (fun c => c != code)).length + 1 = codes.length ∧
      (codes.filter (fun c => c != code)).contains code = false ∧
      (twoFABackup (some u') code).1 =
        { status := 400, message := some "Invalid backup code" } ∧
      (twoFABackup (some u') code).2 = some u' ∧
      backupCount (twoFABackup (some v) code').2 ≤ backupCount (some v) := by
  have hmem : code ∈ codes := List.count_pos_iff.mp (by omega)
  have hlen : (codes.filter (fun c => c != code)).length + 1 =
      codes.length := by
    have := length_filter_ne_count codes code
    omega
  refine ⟨{ u with securitySettings :=
    { u.securitySettings with
      twoFactorBackupCodes := some (codes.filter (fun c => c != code)) } },
    ?_, ?_, ?_, rfl, hlen,
    contains_filter_ne_self codes code, ?_, ?_,
    backupCount_after_redeem_le v code'⟩
  · simp [twoFABackup, hen, hc, hmem]
  · simp [twoFABackup, hen, hc, hmem]
  · simp [twoFABackup, hen, hc, hmem]
  · have hnm : code ∉ codes.filter (fun c => c != code) := by
      simp [List.mem_filter]
    simp [twoFABackup, hen, hnm]
  · have hnm : code ∉ codes.filter (fun c => c != code) := by
      simp [List.mem_filter]
    simp [twoFABackup, hen, hnm]

/-- Witness for C1: the enabled sample user redeeming "aaaa" out of its
two stored codes, with the fresh sample user probing monotonicity. -/
theorem backup_code_single_use_witness :
    sampleUserEnabled.securitySettings.twoFactorEnabled = true ∧
    sampleUserEnabled.securitySettings.twoFactorBackupCodes =
      some ["aaaa", "bbbb"] ∧
    (["aaaa", "bbbb"] : List String).count "aaaa" = 1 ∧
    (∃ u' : User,
      (twoFABackup (some sampleUserEnabled) "aaaa").2 = some u' ∧
      (twoFABackup (some sampleUserEnabled) "aaaa").1.status = 200 ∧
      (twoFABackup (some sampleUserEnabled) "aaaa").1.token =
        some (jwtSign sampleUserEnabled.id) ∧
      u'.securitySettings.twoFactorBackupCodes =
        some ((["aaaa", "bbbb"] : List String).filter
          (fun c => c != "aaaa")) ∧
      ((["aaaa", "bbbb"] : List String).filter
          (fun c => c != "aaaa")).length + 1 =
        (["aaaa", "bbbb"] : List String).length ∧
      ((["aaaa", "bbbb"] : List String).filter
          (fun c => c != "aaaa")).contains "aaaa" = false ∧
      (twoFABackup (some u') "aaaa").1 =
        { status := 400, message := some "Invalid backup code" } ∧
      (twoFABackup (some u') "aaaa").2 = some u' ∧
      backupCount (twoFABackup (some sampleUserFresh) "zzzz").2 ≤
        backupCount (some sampleUserFresh)) :=
  ⟨rfl, rfl, by decide,
   backup_code_single_use sampleUserEnabled sampleUserFresh "aaaa" "zzzz"
     ["aaaa", "bbbb"] rfl rfl (by decide)⟩

/-- Claim C7 counterexample: two failing requests to the validate
endpoint — one naming no existing user, one naming the enabled sample
user but submitting the wrong code 0 — both fail with status 400 yet
carry different message texts (`Invalid request` versus
`Invalid verification code`), so an observer can tell the failure
modes apart. -/
theorem validate_message_counterexample :
    (twoFAValidate none 3 0).status = 400 ∧
    (twoFAValidate (some sampleUserEnabled) 0 0).status = 400 ∧
    (twoFAValidate none 3 0).message = some "Invalid request" ∧
    (twoFAValidate (some sampleUserEnabled) 0 0).message =
      some "Invalid verification code" ∧
    (twoFAValidate none 3 0).message ≠
      (twoFAValidate (some sampleUserEnabled) 0 0).message := by
  decide

/-- Claim C7 (amended): on the validate and backup endpoints, the
user-does-not-exist and 2FA-not-enabled failures share the one generic
message `Invalid request`, but a wrong submitted code fails with the
endpoint-specific message `Invalid verification code` (validate) or
`Invalid backup code` (backup), different from the generic one — so an
observer cannot distinguish a missing user from a 2FA-less user, but
can tell a wrong-code failure (and hence that the account exists with
2FA enabled) apart from the others; all these failures share status
400. -/
theorem failure_message_taxonomy (u₀ u₁ u₂ : User) (tok t s : Nat)
    (bc : String) (codes : List String)
    (h₀ : u₀.securitySettings.twoFactorEnabled = false)
    (hen₁ : u₁.securitySettings.twoFactorEnabled = true)
    (hd₁ : decrypt2FASecret u₁.securitySettings.twoFactorSecret = some s)
    (hv : verifyToken tok s t = false)
    (hen₂ : u₂.securitySettings.twoFactorEnabled = true)
    (hbc : u₂.securitySettings.twoFactorBackupCodes = some codes)
    (hnm : bc ∉ codes) :
    twoFAValidate none tok t =
      { status := 400, message := some "Invalid request" } ∧
    twoFAValidate (some u₀) tok t =
      { status := 400, message := some "Invalid request" } ∧
    (twoFABackup none bc).1 =
      { status := 400, message := some "Invalid request" } ∧
    (twoFABackup (some u₀) bc).1 =
      { status := 400, message := some "Invalid request" } ∧
    twoFAValidate (some u₁) tok t =
      { status := 400, message := some "Invalid verification code" } ∧
    (twoFABackup (some u₂) bc).1 =
      { status := 400, message := some "Invalid backup code" } ∧
    (twoFAValidate (some u₁) tok t).message ≠
      (twoFAValidate (some u₀) tok t).message ∧
    ((twoFABackup (some u₂) bc).1).message ≠
      ((twoFABackup (some u₀) bc).1).message := by
  have e₂ : twoFAValidate (some u₀) tok t =
      { status := 400, message := some "Invalid request" } := by
    simp [twoFAValidate, h₀]
  have e₄ : (twoFABackup (some u₀) bc).1 =
      { status := 400, message := some "Invalid request" } := by
    simp [twoFABackup, h₀]
  have e₅ : twoFAValidate (some u₁) tok t =
      { status := 400, message := some "Invalid verification code" } := by
    simp [twoFAValidate, hen₁, hd₁, hv]
  have e₆ : (twoFABackup (some u₂) bc).1 =
      { status := 400, message := some "Invalid backup code" } := by
    simp [twoFABackup, hen₂, hbc, hnm]
  refine ⟨rfl, e₂, rfl, e₄, e₅, e₆, ?_, ?_⟩
  · rw [e₅, e₂]
    decide
  · rw [e₆, e₄]
    decide

/-- Witness for the amended C7: the fresh (2FA-less) and enabled
sample users with wrong code 0 and absent backup code "zzzz". -/
theorem failure_message_taxonomy_witness :
    sampleUserFresh.securitySettings.twoFactorEnabled = false ∧
    sampleUserEnabled.securitySettings.twoFactorEnabled = true ∧
    decrypt2FASecret sampleUserEnabled.securitySettings.twoFactorSecret =
      some 7 ∧
    verifyToken 0 7 0 = false ∧
    sampleUserEnabled.securitySettings.twoFactorBackupCodes =
      some ["aaaa", "bbbb"] ∧
    "zzzz" ∉ (["aaaa", "bbbb"] : List String) ∧
    (twoFAValidate none 0 0 =
      { status := 400, message := some "Invalid request" } ∧
     twoFAValidate (some sampleUserFresh) 0 0 =
      { status := 400, message := some "Invalid request" } ∧
     (twoFABackup none "zzzz").1 =
      { status := 400, message := some "Invalid request" } ∧
     (twoFABackup (some sampleUserFresh) "zzzz").1 =
      { status := 400, message := some "Invalid request" } ∧
     twoFAValidate (some sampleUserEnabled) 0 0 =
      { status := 400, message := some "Invalid verification code" } ∧
     (twoFABackup (some sampleUserEnabled) "zzzz").1 =
      { status := 400, message := some "Invalid backup code" } ∧
     (twoFAValidate (some sampleUserEnabled) 0 0).message ≠
       (twoFAValidate (some sampleUserFresh) 0 0).message ∧
     ((twoFABackup (some sampleUserEnabled) "zzzz").1).message ≠
       ((twoFABackup (some sampleUserFresh) "zzzz").1).message) :=
  ⟨rfl, rfl, rfl, by decide, rfl, by decide,
   failure_message_taxonomy sampleUserFresh sampleUserEnabled
     sampleUserEnabled 0 0 7 "zzzz" ["aaaa", "bbbb"]
     rfl rfl rfl (by decide) rfl rfl (by decide)⟩

/-- Claim C10: the validate and backup endpoints issue a full session
token from the second factor alone — for every user with 2FA enabled,
a currently valid TOTP code (respectively a stored backup code) and
the email-selected record yield a 200 response carrying a session
token; no password ever enters these handlers, and accordingly the
responses are unchanged under any alteration of the stored password,
and no prior login challenge is required or consumed. -/
theorem second_factor_alone_grants_session (u : User) (tok t s : Nat)
    (bc : String) (codes : List String) (pw : String)
    (hen : u.securitySettings.twoFactorEnabled = true)
    (hd : decrypt2FASecret u.securitySettings.twoFactorSecret = some s)
    (hv : verifyToken tok s t = true)
    (hbc : u.securitySettings.twoFactorBackupCodes = some codes)
    (hmem : bc ∈ codes) :
    twoFAValidate (some u) tok t =
      { status := 200, token := some (jwtSign u.id),
        user := some (summarize u) } ∧
    (twoFABackup (some u) bc).1.status = 200 ∧
    (twoFABackup (some u) bc).1.token = some (jwtSign u.id) ∧
    twoFAValidate (some { u with password := pw }) tok t =
      twoFAValidate (some u) tok t ∧
    (twoFABackup (some { u with password := pw }) bc).1.token =
      (twoFABackup (some u) bc).1.token := by
  refine ⟨?_, ?_, ?_, ?_, ?_⟩
  · simp [twoFAValidate, hen, hd, hv]
  · simp [twoFABackup, hen, hbc, hmem]
  · simp [twoFABackup, hen, hbc, hmem]
  · simp [twoFAValidate, hen, hd, hv, summarize]
  · simp [twoFABackup, hen, hbc, hmem]

/-- Witness for C10: the enabled sample user with the current TOTP code
and the stored backup code "bbbb". -/
theorem second_factor_alone_grants_session_witness :
    sampleUserEnabled.securitySettings.twoFactorEnabled = true ∧
    decrypt2FASecret sampleUserEnabled.securitySettings.twoFactorSecret =
      some 7 ∧
    verifyToken (totpCode 7 0) 7 0 = true ∧
    sampleUserEnabled.securitySettings.twoFactorBackupCodes =
      some ["aaaa", "bbbb"] ∧
    "bbbb" ∈ (["aaaa", "bbbb"] : List String) ∧
    (twoFAValidate (some sampleUserEnabled) (totpCode 7 0) 0 =
      { status := 200, token := some (jwtSign sampleUserEnabled.id),
        user := some (summarize sampleUserEnabled) } ∧
     (twoFABackup (some sampleUserEnabled) "bbbb").1.status = 200 ∧
     (twoFABackup (some sampleUserEnabled) "bbbb").1.token =
       some (jwtSign sampleUserEnabled.id) ∧
     twoFAValidate (some { sampleUserEnabled with password := "other" })
         (totpCode 7 0) 0 =
       twoFAValidate (some sampleUserEnabled) (totpCode 7 0) 0 ∧
     (twoFABackup (some { sampleUserEnabled with password := "other" })
         "bbbb").1.token =
       (twoFABackup (some sampleUserEnabled) "bbbb").1.token) :=
  ⟨rfl, rfl, by decide, rfl, by decide,
   second_factor_alone_grants_session sampleUserEnabled (totpCode 7 0) 0 7
     "bbbb" ["aaaa", "bbbb"] "other" rfl rfl (by decide) rfl (by decide)⟩
